import Mathlib

/-!
Shallow embedding of the Athena browser-use scraping service
(`src/python-service/main.py`).

The service is a request/response shim around an external browser
automation agent: each scrape endpoint builds a natural-language task
prompt, submits it to the agent, parses the agent's JSON output into a
list of `SocialPost`, and falls back to a single hardcoded mock post when
the output is absent, unparsable, or empty.  `scrape_both` runs the two
platform scrapers concurrently with exceptions captured, and concatenates
whatever posts the non-failing sides produced.

The embedding replaces the live agent interaction by an `AgentResult`
parameter describing the observable outcome of the
`client.tasks.create_task(...)` / `task_response.complete()` calls, and
replaces `datetime.now().isoformat()` by an explicit `now : String`
parameter.  Everything after that point (key checks, JSON-to-post
mapping, fallback, error wrapping, merging) is translated directly from
the source.
-/

/-- Mirror of the pydantic model `ScrapeRequest` (main.py lines 38-42):
ticker, start date, end date (both `YYYY-MM-DD` strings) and
`max_results` defaulting to 5. -/
structure ScrapeRequest where
  ticker : String
  start_date : String
  end_date : String
  max_results : Int := 5
deriving DecidableEq, Repr

/-- Mirror of the pydantic model `SocialPost` (main.py lines 44-52).
Optional fields are `None` in Python when absent. -/
structure SocialPost where
  platform : String
  title : String
  content : String
  url : String
  score : Option Int := none
  date : String
  author : Option String := none
  comments_count : Option Int := none
deriving DecidableEq, Repr

/-- Mirror of the pydantic model `ScrapeResponse` (main.py lines 54-58). -/
structure ScrapeResponse where
  ticker : String
  posts : List SocialPost
  source : String
  timestamp : String
deriving DecidableEq, Repr

/-- The dict returned by `/scrape/both` (main.py lines 423-428); it has the
same keys as `ScrapeResponse` but is a plain dict, with no response-model
validation. -/
structure BothResponse where
  ticker : String
  posts : List SocialPost
  source : String
  timestamp : String
deriving DecidableEq, Repr

/-- The dict returned by `GET /health` (main.py lines 69-77). -/
structure HealthResponse where
  status : String
  browser_use_configured : Bool
  python_version : String
deriving DecidableEq, Repr

/-- Environment facts the endpoints read: whether `browser_use_sdk` can be
imported, and the value of the `BROWSER_USE_API_KEY` environment variable
(`none` when unset). -/
structure Env where
  sdk_installed : Bool
  browser_use_api_key : Option String
deriving DecidableEq, Repr

/-- Python truthiness of an optional string: `os.getenv` yields `None`
when the variable is absent, and both `None` and the empty string are
falsy (`if not api_key:` on line 99, `bool(browser_use_key)` on
line 75). -/
def str_truthy : Option String → Bool
  | none => false
  | some s => !(s == "")

/-- Mirror of `health_check` (main.py lines 69-77): always returns a
healthy status and reports whether the API key is configured. -/
def health_check (browser_use_key : Option String) : HealthResponse :=
  { status := "healthy"
  , browser_use_configured := str_truthy browser_use_key
  , python_version := "3.11+" }

/-- One element of the agent output's `posts` array, modelled as a JSON
object in which each expected key is either absent (`none`) or present
with a value of the type the endpoints read (`post.get('title', '')`
etc., main.py lines 182-192). -/
structure PostData where
  title : Option String := none
  content : Option String := none
  url : Option String := none
  score : Option Int := none
  date : Option String := none
  author : Option String := none
  comments_count : Option Int := none
deriving DecidableEq, Repr

/-- Observable outcome of the external agent interaction, i.e. of the
`create_task` / `complete` calls and of `json.loads(result.output)`:

* `err msg`: an exception with message `msg` was raised while submitting
  or completing the task (for example because the agent service is
  unreachable); it escapes the inner `try` and is caught by the outer
  `except Exception` handler (main.py lines 234-236).
* `no_output`: the task completed but the result object has no `output`
  attribute, so `result_data = {}` (main.py line 177).
* `invalid_json`: `result.output` exists but `json.loads` raises
  `JSONDecodeError` on it, or the decoded value is not an object so that
  `result_data.get` raises `AttributeError`; either way control reaches
  the `except (json.JSONDecodeError, AttributeError)` branch (main.py
  lines 210-224).
* `posts l`: the output decodes to a JSON object and
  `result_data.get('posts', [])` yields the array `l` (the empty list
  when the `posts` key is missing). -/
inductive AgentResult where
  | err (msg : String)
  | no_output
  | invalid_json
  | posts (l : List PostData)
deriving DecidableEq, Repr

/-- Result of one endpoint call: either a successful response or a raised
`HTTPException` with a status code and detail string. -/
inductive ScrapeOutcome where
  | ok (response : ScrapeResponse)
  | http_error (status_code : Nat) (detail : String)
deriving DecidableEq, Repr

/-- The hardcoded mock Reddit post substituted when parsing yields no
posts (main.py lines 198-209 and 213-224). -/
def reddit_mock (request : ScrapeRequest) : SocialPost :=
  { platform := "reddit"
  , title := "Discussion about " ++ request.ticker
  , content := "This is extracted content from the Reddit post..."
  , url := "https://reddit.com/r/wallstreetbets/..."
  , score := some 500
  , date := request.start_date
  , author := some "reddit_user"
  , comments_count := some 50 }

/-- The hardcoded mock Twitter post substituted when parsing yields no
posts (main.py lines 351-362 and 366-377). -/
def twitter_mock (request : ScrapeRequest) : SocialPost :=
  { platform := "twitter"
  , title := "@financeuser on " ++ request.ticker
  , content := "Tweet content about " ++ request.ticker ++ "..."
  , url := "https://twitter.com/..."
  , score := some 1000
  , date := request.start_date
  , author := some "@financeuser"
  , comments_count := some 25 }

/-- Mapping of one agent posts-array element into a `SocialPost` for
Reddit (main.py lines 183-192): required keys default to the empty
string, `date` defaults to the request's `start_date`, and the optional
keys pass through unset when absent. -/
def reddit_post_of (request : ScrapeRequest) (post : PostData) : SocialPost :=
  { platform := "reddit"
  , title := post.title.getD ""
  , content := post.content.getD ""
  , url := post.url.getD ""
  , score := post.score
  , date := post.date.getD request.start_date
  , author := post.author
  , comments_count := post.comments_count }

/-- Mapping of one agent posts-array element into a `SocialPost` for
Twitter (main.py lines 336-345); identical to the Reddit mapping except
for the platform tag. -/
def twitter_post_of (request : ScrapeRequest) (post : PostData) : SocialPost :=
  { platform := "twitter"
  , title := post.title.getD ""
  , content := post.content.getD ""
  , url := post.url.getD ""
  , score := post.score
  , date := post.date.getD request.start_date
  , author := post.author
  , comments_count := post.comments_count }

/-- The natural-language task prompt sent to the agent by `scrape_reddit`
(main.py lines 109-153), with the f-string interpolations of the request
fields spelled out.  `\x7b` and `\x7d` denote the literal braces of the
example JSON block. -/
def reddit_task (request : ScrapeRequest) : String :=
  "\n        Search Google for: site:reddit.com \"" ++ request.ticker ++
  "\" after:" ++ request.start_date ++ " before:" ++ request.end_date ++
  "\n\n        Find the top " ++ toString request.max_results ++
  " Reddit posts about $" ++ request.ticker ++ " from subreddits like:\n" ++
  "        - r/wallstreetbets\n        - r/stocks\n        - r/investing\n\n" ++
  "        For each post, try to extract as much information as possible:\n" ++
  "        - Post title (required)\n        - Post URL (required)\n" ++
  "        - Upvote score (optional, if visible)\n" ++
  "        - Post date (optional, use approximate if exact date unavailable)\n" ++
  "        - Author username (optional)\n" ++
  "        - Number of comments (optional)\n" ++
  "        - Key excerpt from post body (1-2 sentences, required)\n\n" ++
  "        Return the data as JSON. The structure should be a \"posts\" array. Each post should have at minimum:\n" ++
  "        - \"title\" (string)\n        - \"url\" (string)\n" ++
  "        - \"content\" (string with excerpt)\n\n" ++
  "        Optional fields (include if available, omit if not):\n" ++
  "        - \"score\" (number)\n" ++
  "        - \"date\" (string in YYYY-MM-DD format if possible, or any date format)\n" ++
  "        - \"author\" (string)\n" ++
  "        - \"comments_count\" (number)\n\n" ++
  "        Example format (but be flexible with structure):\n" ++
  "        \x7b\n            \"posts\": [\n                \x7b\n" ++
  "                    \"title\": \"Post title here\",\n" ++
  "                    \"url\": \"https://reddit.com/...\",\n" ++
  "                    \"content\": \"Excerpt from post...\",\n" ++
  "                    \"score\": 1234,\n" ++
  "                    \"date\": \"2024-01-15\",\n" ++
  "                    \"author\": \"username\",\n" ++
  "                    \"comments_count\": 56\n" ++
  "                \x7d\n            ]\n        \x7d\n\n" ++
  "        If you cannot extract all fields, just include what you can find. Partial data is acceptable.\n        "

/-- The natural-language task prompt sent to the agent by `scrape_twitter`
(main.py lines 267-307). -/
def twitter_task (request : ScrapeRequest) : String :=
  "\n        Search Google for: site:x.com \"" ++ request.ticker ++
  "\" after:" ++ request.start_date ++ " before:" ++ request.end_date ++
  "\n\n        Find the top " ++ toString request.max_results ++
  " tweets about $" ++ request.ticker ++ " with high engagement (many likes/retweets).\n\n" ++
  "        For each tweet, try to extract as much information as possible:\n" ++
  "        - Tweet text (required)\n        - Tweet URL (required)\n" ++
  "        - Number of likes (optional, if visible)\n" ++
  "        - Tweet date (optional, use approximate if exact date unavailable)\n" ++
  "        - Author handle (optional)\n" ++
  "        - Number of retweets or replies (optional)\n\n" ++
  "        Return the data as JSON. The structure should be a \"posts\" array. Each post should have at minimum:\n" ++
  "        - \"content\" (string with tweet text)\n        - \"url\" (string)\n\n" ++
  "        Optional fields (include if available, omit if not):\n" ++
  "        - \"title\" (string, can be author handle or empty string)\n" ++
  "        - \"score\" (number for likes)\n" ++
  "        - \"date\" (string in YYYY-MM-DD format if possible, or any date format)\n" ++
  "        - \"author\" (string with handle)\n" ++
  "        - \"comments_count\" (number for replies/retweets)\n\n" ++
  "        Example format (but be flexible with structure):\n" ++
  "        \x7b\n            \"posts\": [\n                \x7b\n" ++
  "                    \"title\": \"@username\",\n" ++
  "                    \"content\": \"Tweet text here\",\n" ++
  "                    \"url\": \"https://twitter.com/...\",\n" ++
  "                    \"score\": 5678,\n" ++
  "                    \"date\": \"2024-01-15\",\n" ++
  "                    \"author\": \"@username\",\n" ++
  "                    \"comments_count\": 123\n" ++
  "                \x7d\n            ]\n        \x7d\n\n" ++
  "        If you cannot extract all fields, just include what you can find. Partial data is acceptable.\n        "

/-- Mirror of the endpoint `scrape_reddit` (main.py lines 79-236).

Inside the outer `try`: a missing SDK or a missing/empty API key raises
an `HTTPException(500, ...)`; an exception from the agent interaction
propagates as is; otherwise the parsed posts array is mapped through
`reddit_post_of`, with the single mock post substituted when it is empty
or when decoding failed.  Any exception reaching the outer
`except Exception as e` handler is re-raised as
`HTTPException(500, str(e))`; for an inner `HTTPException` the Starlette
`str` is `"{status_code}: {detail}"`, hence the `"500: "` prefix on the
configuration errors. -/
def scrape_reddit (env : Env) (request : ScrapeRequest) (agent : AgentResult)
    (now : String) : ScrapeOutcome :=
  if !env.sdk_installed then
    .http_error 500 ("500: " ++ "browser-use-sdk library not installed. Run: pip install browser-use-sdk")
  else if !(str_truthy env.browser_use_api_key) then
    .http_error 500 ("500: " ++ "BROWSER_USE_API_KEY not configured in .env")
  else
    match agent with
    | .err msg => .http_error 500 msg
    | .no_output =>
        .ok { ticker := request.ticker, posts := [reddit_mock request]
            , source := "reddit", timestamp := now }
    | .invalid_json =>
        .ok { ticker := request.ticker, posts := [reddit_mock request]
            , source := "reddit", timestamp := now }
    | .posts l =>
        .ok { ticker := request.ticker
            , posts :=
                if (l.map (reddit_post_of request)).isEmpty then [reddit_mock request]
                else l.map (reddit_post_of request)
            , source := "reddit", timestamp := now }

/-- Mirror of the endpoint `scrape_twitter` (main.py lines 238-389);
structurally identical to `scrape_reddit` with the Twitter prompt, mock
and platform tag. -/
def scrape_twitter (env : Env) (request : ScrapeRequest) (agent : AgentResult)
    (now : String) : ScrapeOutcome :=
  if !env.sdk_installed then
    .http_error 500 ("500: " ++ "browser-use-sdk library not installed. Run: pip install browser-use-sdk")
  else if !(str_truthy env.browser_use_api_key) then
    .http_error 500 ("500: " ++ "BROWSER_USE_API_KEY not configured in .env")
  else
    match agent with
    | .err msg => .http_error 500 msg
    | .no_output =>
        .ok { ticker := request.ticker, posts := [twitter_mock request]
            , source := "twitter", timestamp := now }
    | .invalid_json =>
        .ok { ticker := request.ticker, posts := [twitter_mock request]
            , source := "twitter", timestamp := now }
    | .posts l =>
        .ok { ticker := request.ticker
            , posts :=
                if (l.map (twitter_post_of request)).isEmpty then [twitter_mock request]
                else l.map (twitter_post_of request)
            , source := "twitter", timestamp := now }

/-- The per-platform contribution to the merged list of `scrape_both`
(main.py lines 411-419): a successful response contributes its posts, a
captured exception contributes nothing. -/
def posts_of : ScrapeOutcome → List SocialPost
  | .ok response => response.posts
  | .http_error _ _ => []

/-- Mirror of the endpoint `scrape_both` (main.py lines 391-432): runs
both platform scrapers with `asyncio.gather(..., return_exceptions=True)`
so that a raised exception on either side is captured rather than
propagated, then concatenates the Reddit posts (if any) with the Twitter
posts (if any).  Each side's agent outcome and timestamp are independent;
nothing in the body after the gather can raise, so the endpoint always
returns a `BothResponse`. -/
def scrape_both (env : Env) (request : ScrapeRequest)
    (reddit_agent twitter_agent : AgentResult)
    (reddit_now twitter_now now : String) : BothResponse :=
  { ticker := request.ticker
  , posts := posts_of (scrape_reddit env request reddit_agent reddit_now)
          ++ posts_of (scrape_twitter env request twitter_agent twitter_now)
  , source := "reddit+twitter"
  , timestamp := now }

/-- A configured environment used for concrete instances: the SDK is
installed and the API key is set. -/
def env_ex : Env := ⟨true, some "key"⟩

/-- The concrete request of the spec's worked example. -/
def req_ex : ScrapeRequest := ⟨"AAPL", "2024-01-01", "2024-01-31", 3⟩

/-- An agent posts-array element with every key absent. -/
def pd_empty : PostData := {}

/-- C1 counterexample: with the environment fully configured, an agent
interaction that raises (the unreachable-agent case) makes
`scrape_reddit` raise HTTP 500 with the exception text; it does not
return a successful one-mock-post response, contradicting the claim's
"unreachable" disjunct. -/
theorem C1_unreachable_counterexample :
    scrape_reddit env_ex req_ex (.err "connection refused") "T"
      = .http_error 500 "connection refused"
    ∧ ¬ ∃ r, scrape_reddit env_ex req_ex (.err "connection refused") "T"
        = ScrapeOutcome.ok r := by
  refine ⟨rfl, ?_⟩
  rintro ⟨r, h⟩
  rw [show scrape_reddit env_ex req_ex (.err "connection refused") "T"
        = .http_error 500 "connection refused" from rfl] at h
  exact ScrapeOutcome.noConfusion h

/-- C1 (amended): with the SDK installed and the API key configured, when
the task result lacks an output attribute, or its output fails JSON
decoding, or the parsed posts array is empty, `scrape_reddit` and
`scrape_twitter` return a successful response with exactly the one mock
post for the platform, whose platform tag is the requested platform and
whose date is the request's start date; no parse error reaches the
caller.  (When the agent interaction itself raises — the unreachable
case — the error instead surfaces as HTTP 500.) -/
theorem C1_fallback_mock (env : Env) (request : ScrapeRequest)
    (agent : AgentResult) (now : String)
    (hsdk : env.sdk_installed = true)
    (hkey : str_truthy env.browser_use_api_key = true)
    (hagent : agent = .no_output ∨ agent = .invalid_json ∨ agent = .posts []) :
    scrape_reddit env request agent now
      = .ok { ticker := request.ticker, posts := [reddit_mock request]
            , source := "reddit", timestamp := now }
    ∧ scrape_twitter env request agent now
      = .ok { ticker := request.ticker, posts := [twitter_mock request]
            , source := "twitter", timestamp := now }
    ∧ (reddit_mock request).platform = "reddit"
    ∧ (reddit_mock request).date = request.start_date
    ∧ (twitter_mock request).platform = "twitter"
    ∧ (twitter_mock request).date = request.start_date := by
  rcases hagent with h | h | h <;> subst h <;>
    simp [scrape_reddit, scrape_twitter, hsdk, hkey, reddit_mock, twitter_mock]

/-- C1 witness: the amended theorem instantiated at a concrete
invalid-JSON outcome. -/
theorem C1_fallback_mock_witness :
    scrape_reddit env_ex req_ex .invalid_json "T"
      = .ok { ticker := "AAPL", posts := [reddit_mock req_ex]
            , source := "reddit", timestamp := "T" } :=
  (C1_fallback_mock env_ex req_ex .invalid_json "T" rfl rfl (Or.inr (Or.inl rfl))).1

/-- C2: with the environment configured, an agent output decoding to a
posts array of length k with 1 ≤ k ≤ max_results is mapped to exactly k
posts; every mapped post carries the platform tag of the endpoint, and
its date is the request's start date when the element has no date key
and the element's own date otherwise. -/
theorem C2_mapped_posts (env : Env) (request : ScrapeRequest)
    (l : List PostData) (now : String)
    (hsdk : env.sdk_installed = true)
    (hkey : str_truthy env.browser_use_api_key = true)
    (hk1 : 1 ≤ l.length)
    (hkmax : (l.length : Int) ≤ request.max_results) :
    scrape_reddit env request (.posts l) now
      = .ok { ticker := request.ticker, posts := l.map (reddit_post_of request)
            , source := "reddit", timestamp := now }
    ∧ scrape_twitter env request (.posts l) now
      = .ok { ticker := request.ticker, posts := l.map (twitter_post_of request)
            , source := "twitter", timestamp := now }
    ∧ (l.map (reddit_post_of request)).length = l.length
    ∧ (l.map (twitter_post_of request)).length = l.length
    ∧ ∀ p ∈ l,
        (reddit_post_of request p).platform = "reddit"
        ∧ (twitter_post_of request p).platform = "twitter"
        ∧ (p.date = none →
            (reddit_post_of request p).date = request.start_date
            ∧ (twitter_post_of request p).date = request.start_date)
        ∧ ∀ d, p.date = some d →
            (reddit_post_of request p).date = d
            ∧ (twitter_post_of request p).date = d := by
  obtain ⟨a, t, rfl⟩ : ∃ a t, l = a :: t := by
    cases l with
    | nil => simp at hk1
    | cons a t => exact ⟨a, t, rfl⟩
  refine ⟨by simp [scrape_reddit, hsdk, hkey], by simp [scrape_twitter, hsdk, hkey],
    by simp, by simp, ?_⟩
  intro p _
  refine ⟨rfl, rfl, ?_, ?_⟩
  · intro hd
    simp [reddit_post_of, twitter_post_of, hd]
  · intro d hd
    simp [reddit_post_of, twitter_post_of, hd]

/-- C2 witness: a two-element posts array, one element with its own date
and one without, under max_results = 3. -/
theorem C2_mapped_posts_witness :
    scrape_reddit env_ex req_ex
      (.posts [{ pd_empty with date := some "2024-01-15" }, pd_empty]) "T"
      = .ok { ticker := "AAPL"
            , posts := [reddit_post_of req_ex { pd_empty with date := some "2024-01-15" }
                       , reddit_post_of req_ex pd_empty]
            , source := "reddit", timestamp := "T" } :=
  (C2_mapped_posts env_ex req_ex
    [{ pd_empty with date := some "2024-01-15" }, pd_empty] "T"
    rfl rfl (by decide) (by decide)).1

/-- C3: `scrape_both` always returns (it is a total function into
`BothResponse`), and its merged post count is the sum of both sides'
counts when both platform calls succeed, the succeeding side's count
when exactly one raises, and 0 when both raise. -/
theorem C3_merged_length (env : Env) (request : ScrapeRequest)
    (reddit_agent twitter_agent : AgentResult)
    (reddit_now twitter_now now : String) :
    (∀ r t, scrape_reddit env request reddit_agent reddit_now = .ok r →
        scrape_twitter env request twitter_agent twitter_now = .ok t →
        (scrape_both env request reddit_agent twitter_agent reddit_now twitter_now now).posts.length
          = r.posts.length + t.posts.length)
    ∧ (∀ r c d, scrape_reddit env request reddit_agent reddit_now = .ok r →
        scrape_twitter env request twitter_agent twitter_now = .http_error c d →
        (scrape_both env request reddit_agent twitter_agent reddit_now twitter_now now).posts.length
          = r.posts.length)
    ∧ (∀ t c d, scrape_reddit env request reddit_agent reddit_now = .http_error c d →
        scrape_twitter env request twitter_agent twitter_now = .ok t →
        (scrape_both env request reddit_agent twitter_agent reddit_now twitter_now now).posts.length
          = t.posts.length)
    ∧ (∀ c d c₂ d₂, scrape_reddit env request reddit_agent reddit_now = .http_error c d →
        scrape_twitter env request twitter_agent twitter_now = .http_error c₂ d₂ →
        (scrape_both env request reddit_agent twitter_agent reddit_now twitter_now now).posts.length
          = 0) := by
  refine ⟨?_, ?_, ?_, ?_⟩ <;> intros <;> simp_all [scrape_both, posts_of]

/-- C3 witness: all four cases instantiated — two no-output agents (one
mock post each side), one raising side in either position, and both
raising. -/
theorem C3_merged_length_witness :
    (scrape_both env_ex req_ex .no_output .no_output "R" "W" "T").posts.length = 1 + 1
    ∧ (scrape_both env_ex req_ex .no_output (.err "x") "R" "W" "T").posts.length = 1
    ∧ (scrape_both env_ex req_ex (.err "x") .no_output "R" "W" "T").posts.length = 1
    ∧ (scrape_both env_ex req_ex (.err "x") (.err "y") "R" "W" "T").posts.length = 0 := by
  refine ⟨?_, ?_, ?_, ?_⟩
  · exact (C3_merged_length env_ex req_ex .no_output .no_output "R" "W" "T").1
      { ticker := "AAPL", posts := [reddit_mock req_ex], source := "reddit", timestamp := "R" }
      { ticker := "AAPL", posts := [twitter_mock req_ex], source := "twitter", timestamp := "W" }
      rfl rfl
  · exact (C3_merged_length env_ex req_ex .no_output (.err "x") "R" "W" "T").2.1
      { ticker := "AAPL", posts := [reddit_mock req_ex], source := "reddit", timestamp := "R" }
      500 "x" rfl rfl
  · exact (C3_merged_length env_ex req_ex (.err "x") .no_output "R" "W" "T").2.2.1
      { ticker := "AAPL", posts := [twitter_mock req_ex], source := "twitter", timestamp := "W" }
      500 "x" rfl rfl
  · exact (C3_merged_length env_ex req_ex (.err "x") (.err "y") "R" "W" "T").2.2.2
      500 "x" 500 "y" rfl rfl

/-- C4: when both platform calls succeed, the merged posts list is
exactly the Reddit posts in order followed by the Twitter posts in order
(plain concatenation, no interleaving or ranking). -/
theorem C4_merge_order (env : Env) (request : ScrapeRequest)
    (reddit_agent twitter_agent : AgentResult)
    (reddit_now twitter_now now : String) (r t : ScrapeResponse)
    (hr : scrape_reddit env request reddit_agent reddit_now = .ok r)
    (ht : scrape_twitter env request twitter_agent twitter_now = .ok t) :
    (scrape_both env request reddit_agent twitter_agent reddit_now twitter_now now).posts
      = r.posts ++ t.posts := by
  simp [scrape_both, posts_of, hr, ht]

/-- C4 witness: both sides succeed with their mock posts; the merged list
is Reddit's then Twitter's. -/
theorem C4_merge_order_witness :
    (scrape_both env_ex req_ex .no_output .no_output "R" "W" "T").posts
      = [reddit_mock req_ex] ++ [twitter_mock req_ex] :=
  C4_merge_order env_ex req_ex .no_output .no_output "R" "W" "T"
    { ticker := "AAPL", posts := [reddit_mock req_ex], source := "reddit", timestamp := "R" }
    { ticker := "AAPL", posts := [twitter_mock req_ex], source := "twitter", timestamp := "W" }
    rfl rfl

/-- C5: every successful response of `scrape_reddit` echoes the request's
ticker and carries source "reddit"; likewise `scrape_twitter` with
source "twitter". -/
theorem C5_ticker_source (env : Env) (request : ScrapeRequest)
    (agent : AgentResult) (now : String) :
    (∀ r, scrape_reddit env request agent now = .ok r →
        r.ticker = request.ticker ∧ r.source = "reddit")
    ∧ (∀ r, scrape_twitter env request agent now = .ok r →
        r.ticker = request.ticker ∧ r.source = "twitter") := by
  constructor <;> intro r h
  · unfold scrape_reddit at h
    split_ifs at h
    cases agent <;>
      first
        | exact ScrapeOutcome.noConfusion h
        | (injection h with h; subst h; exact ⟨rfl, rfl⟩)
  · unfold scrape_twitter at h
    split_ifs at h
    cases agent <;>
      first
        | exact ScrapeOutcome.noConfusion h
        | (injection h with h; subst h; exact ⟨rfl, rfl⟩)

/-- C5 witness: the theorem applied to the concrete successful mock
responses of both endpoints. -/
theorem C5_ticker_source_witness :
    (({ ticker := "AAPL", posts := [reddit_mock req_ex], source := "reddit"
      , timestamp := "T" } : ScrapeResponse).ticker = req_ex.ticker
      ∧ ({ ticker := "AAPL", posts := [reddit_mock req_ex], source := "reddit"
         , timestamp := "T" } : ScrapeResponse).source = "reddit")
    ∧ (({ ticker := "AAPL", posts := [twitter_mock req_ex], source := "twitter"
        , timestamp := "T" } : ScrapeResponse).ticker = req_ex.ticker
      ∧ ({ ticker := "AAPL", posts := [twitter_mock req_ex], source := "twitter"
         , timestamp := "T" } : ScrapeResponse).source = "twitter") :=
  ⟨(C5_ticker_source env_ex req_ex .no_output "T").1 _ rfl,
   (C5_ticker_source env_ex req_ex .no_output "T").2 _ rfl⟩

/-- C6: whenever the BROWSER_USE_API_KEY environment variable is absent,
both scrape endpoints fail with an HTTP 500 configuration error (with
the descriptive key-missing message when the SDK import succeeds), while
health_check still returns a healthy status reporting
browser_use_configured = false. -/
theorem C6_missing_key (env : Env) (request : ScrapeRequest)
    (agent : AgentResult) (now : String)
    (hkey : env.browser_use_api_key = none) :
    (∃ d, scrape_reddit env request agent now = .http_error 500 d)
    ∧ (∃ d, scrape_twitter env request agent now = .http_error 500 d)
    ∧ (env.sdk_installed = true →
        scrape_reddit env request agent now
          = .http_error 500 "500: BROWSER_USE_API_KEY not configured in .env"
        ∧ scrape_twitter env request agent now
          = .http_error 500 "500: BROWSER_USE_API_KEY not configured in .env")
    ∧ health_check env.browser_use_api_key
        = { status := "healthy", browser_use_configured := false
          , python_version := "3.11+" } := by
  cases hs : env.sdk_installed <;>
    simp [scrape_reddit, scrape_twitter, health_check, str_truthy, hkey, hs]

/-- C6 witness: the theorem at a concrete unconfigured environment. -/
theorem C6_missing_key_witness :
    (∃ d, scrape_reddit ⟨true, none⟩ req_ex .no_output "T" = .http_error 500 d)
    ∧ health_check (none : Option String)
        = { status := "healthy", browser_use_configured := false
          , python_version := "3.11+" } :=
  ⟨(C6_missing_key ⟨true, none⟩ req_ex .no_output "T" rfl).1,
   (C6_missing_key ⟨true, none⟩ req_ex .no_output "T" rfl).2.2.2⟩

/-- C7: the spec's worked example — request AAPL over 2024-01-01 to
2024-01-31 with max_results 3, agent output decoding to a single posts
element with only title "t", url "u" and content "c" — yields exactly
the one post with platform "reddit", date defaulted to "2024-01-01" and
every optional field unset. -/
theorem C7_worked_example :
    scrape_reddit env_ex req_ex
      (.posts [{ title := some "t", url := some "u", content := some "c" }]) "T"
    = .ok { ticker := "AAPL"
          , posts := [{ platform := "reddit", title := "t", content := "c"
                      , url := "u", score := none, date := "2024-01-01"
                      , author := none, comments_count := none }]
          , source := "reddit", timestamp := "T" } := by decide

/-- C8: the max_results cap is not enforced locally.  A parsed posts
array longer than max_results is still returned in full by both
endpoints; the endpoints' results are invariant under changing
max_results; and max_results does reach the agent's task prompt (shown
on a concrete request pair). -/
theorem C8_cap_not_enforced (env : Env) (request : ScrapeRequest)
    (l : List PostData) (now : String)
    (hsdk : env.sdk_installed = true)
    (hkey : str_truthy env.browser_use_api_key = true)
    (hne : l ≠ [])
    (hover : request.max_results < (l.length : Int)) :
    (∃ r, scrape_reddit env request (.posts l) now = .ok r
        ∧ r.posts.length = l.length)
    ∧ (∃ r, scrape_twitter env request (.posts l) now = .ok r
        ∧ r.posts.length = l.length)
    ∧ (∀ m, scrape_reddit env { request with max_results := m } (.posts l) now
          = scrape_reddit env request (.posts l) now
        ∧ scrape_twitter env { request with max_results := m } (.posts l) now
          = scrape_twitter env request (.posts l) now)
    ∧ reddit_task { req_ex with max_results := 3 }
        ≠ reddit_task { req_ex with max_results := 4 } := by
  obtain ⟨a, t, rfl⟩ : ∃ a t, l = a :: t := by
    cases l with
    | nil => exact absurd rfl hne
    | cons a t => exact ⟨a, t, rfl⟩
  refine ⟨?_, ?_, ?_, by decide⟩
  · refine ⟨{ ticker := request.ticker
            , posts := (a :: t).map (reddit_post_of request)
            , source := "reddit", timestamp := now }, ?_, ?_⟩
    · simp [scrape_reddit, hsdk, hkey]
    · simp
  · refine ⟨{ ticker := request.ticker
            , posts := (a :: t).map (twitter_post_of request)
            , source := "twitter", timestamp := now }, ?_, ?_⟩
    · simp [scrape_twitter, hsdk, hkey]
    · simp
  · intro m
    constructor <;>
      simp [scrape_reddit, scrape_twitter, hsdk, hkey,
        reddit_post_of, twitter_post_of]

/-- C8 witness: four parsed posts against max_results 3 are all
returned. -/
theorem C8_cap_not_enforced_witness :
    ∃ r, scrape_reddit env_ex req_ex
        (.posts [pd_empty, pd_empty, pd_empty, pd_empty]) "T" = .ok r
      ∧ r.posts.length = 4 :=
  (C8_cap_not_enforced env_ex req_ex [pd_empty, pd_empty, pd_empty, pd_empty]
    "T" rfl rfl (by decide) (by decide)).1

/-- C9: with the API key absent, scrape_both does not surface the
configuration error: both inner calls raise HTTP 500 (captured by the
exception-collecting gather), and scrape_both still returns a successful
response whose posts list is empty. -/
theorem C9_both_no_key (env : Env) (request : ScrapeRequest)
    (reddit_agent twitter_agent : AgentResult)
    (reddit_now twitter_now now : String)
    (hkey : env.browser_use_api_key = none) :
    scrape_both env request reddit_agent twitter_agent reddit_now twitter_now now
      = { ticker := request.ticker, posts := []
        , source := "reddit+twitter", timestamp := now }
    ∧ (∃ d, scrape_reddit env request reddit_agent reddit_now = .http_error 500 d)
    ∧ (∃ d, scrape_twitter env request twitter_agent twitter_now = .http_error 500 d) := by
  cases hs : env.sdk_installed <;>
    simp [scrape_both, scrape_reddit, scrape_twitter, posts_of, str_truthy, hkey, hs]

/-- C9 witness: the theorem at a concrete unconfigured environment. -/
theorem C9_both_no_key_witness :
    scrape_both ⟨true, none⟩ req_ex .no_output .no_output "R" "W" "T"
      = { ticker := "AAPL", posts := []
        , source := "reddit+twitter", timestamp := "T" } :=
  (C9_both_no_key ⟨true, none⟩ req_ex .no_output .no_output "R" "W" "T" rfl).1

/-- C10: a posts-array element missing any of the required keys title,
content or url is mapped to a post carrying the empty string for that
field, while only score, author and comments_count stay unset and date
is defaulted when absent; the mapped post appears at the element's index
in both endpoints' responses. -/
theorem C10_missing_keys (env : Env) (request : ScrapeRequest)
    (l : List PostData) (i : Nat) (pd : PostData) (now : String)
    (hsdk : env.sdk_installed = true)
    (hkey : str_truthy env.browser_use_api_key = true)
    (hi : l[i]? = some pd) (hne : l ≠ []) :
    (∃ resp, scrape_reddit env request (.posts l) now = .ok resp
        ∧ resp.posts[i]? = some (reddit_post_of request pd))
    ∧ (∃ resp, scrape_twitter env request (.posts l) now = .ok resp
        ∧ resp.posts[i]? = some (twitter_post_of request pd))
    ∧ (pd.title = none →
        (reddit_post_of request pd).title = ""
        ∧ (twitter_post_of request pd).title = "")
    ∧ (pd.content = none →
        (reddit_post_of request pd).content = ""
        ∧ (twitter_post_of request pd).content = "")
    ∧ (pd.url = none →
        (reddit_post_of request pd).url = ""
        ∧ (twitter_post_of request pd).url = "")
    ∧ (pd.date = none →
        (reddit_post_of request pd).date = request.start_date
        ∧ (twitter_post_of request pd).date = request.start_date)
    ∧ (reddit_post_of request pd).score = pd.score
    ∧ (reddit_post_of request pd).author = pd.author
    ∧ (reddit_post_of request pd).comments_count = pd.comments_count := by
  obtain ⟨a, t, rfl⟩ : ∃ a t, l = a :: t := by
    cases l with
    | nil => exact absurd rfl hne
    | cons a t => exact ⟨a, t, rfl⟩
  refine ⟨?_, ?_, ?_, ?_, ?_, ?_, rfl, rfl, rfl⟩
  · refine ⟨{ ticker := request.ticker
            , posts := (a :: t).map (reddit_post_of request)
            , source := "reddit", timestamp := now }, ?_, ?_⟩
    · simp [scrape_reddit, hsdk, hkey]
    · show ((a :: t).map (reddit_post_of request))[i]? = some (reddit_post_of request pd)
      rw [List.getElem?_map, hi]
      rfl
  · refine ⟨{ ticker := request.ticker
            , posts := (a :: t).map (twitter_post_of request)
            , source := "twitter", timestamp := now }, ?_, ?_⟩
    · simp [scrape_twitter, hsdk, hkey]
    · show ((a :: t).map (twitter_post_of request))[i]? = some (twitter_post_of request pd)
      rw [List.getElem?_map, hi]
      rfl
  · intro h; simp [reddit_post_of, twitter_post_of, h]
  · intro h; simp [reddit_post_of, twitter_post_of, h]
  · intro h; simp [reddit_post_of, twitter_post_of, h]
  · intro h; simp [reddit_post_of, twitter_post_of, h]

/-- C10 witness: a single element with every key absent is mapped to the
post with empty required strings and unset optionals at index 0. -/
theorem C10_missing_keys_witness :
    ∃ resp, scrape_reddit env_ex req_ex (.posts [pd_empty]) "T" = .ok resp
      ∧ resp.posts[0]? = some (reddit_post_of req_ex pd_empty) :=
  (C10_missing_keys env_ex req_ex [pd_empty] 0 pd_empty "T"
    rfl rfl rfl (by decide)).1
